import Mathlib

/-!
Shallow embedding of the Telegram User Info Bot (`src/Bot.py` and its
near-duplicate variant `src/bot.py`) and verification of the spec's claims
about it.

Conventions of the embedding:
* machine integers are `Nat`/`Int` with explicit `% 2^32` where the source
  masks with `0xFFFFFFFF`;
* Python's implicit `datetime.now()` inside `estimate_account_age` is made an
  explicit parameter `now`, a Unix-epoch second count (`Int`);
* Python floor division `//` on possibly-negative integers is `Int.fdiv`;
* Python truthiness of optional strings (`None` and `""` are falsy) is
  modelled explicitly;
* fallible calls (`datetime.fromtimestamp`) return `Option`.
-/

/-- Python truthiness of an optional string attribute: `None` and the empty
string are falsy, every other string is truthy. -/
def pyTruthyStr : Option String → Bool
  | none => false
  | some s => !s.isEmpty

/-- The `x if x else "N/A"` fallback the bot applies to optional string
fields (`user.last_name if user.last_name else 'N/A'` and similar). -/
def orNA : Option String → String
  | none => "N/A"
  | some s => if s.isEmpty then "N/A" else s

/-- A Telegram user as delivered by the client library (`telegram.User`).
Optional attributes are `none` when the platform did not supply them. -/
structure TUser where
  id : Nat
  is_bot : Bool
  first_name : String
  last_name : Option String
  username : Option String
  language_code : Option String
  deriving DecidableEq

/-- A Telegram chat/channel as delivered by the client library
(`telegram.Chat`): forwarded-from channels always carry a title. -/
structure TChat where
  id : Nat
  type : String
  title : String
  username : Option String
  deriving DecidableEq

/-- The forward metadata of a forwarded message (`update.message` as read by
`handle_forwarded`); forwarded messages always carry a forward date. -/
structure FwdMessage where
  forward_from : Option TUser
  forward_from_chat : Option TChat
  forward_sender_name : Option String
  forward_date : Int
  deriving DecidableEq

/-- `(user_id >> 32) & 0xFFFFFFFF`: the upper 32 bits of a (64-bit) Telegram
identifier, read by `estimate_account_age` as a creation timestamp. -/
def account_timestamp (user_id : Nat) : Nat :=
  (user_id >>> 32) % 4294967296

/-- `datetime.fromtimestamp`: converts Unix seconds to a date, raising for
values outside the representable `datetime` range (year 1 to 9999, i.e.
seconds beyond 253402300799 on the nonnegative side); the raise is modelled
as `none` and is what the source's `except` clause would catch. -/
def fromtimestamp (ts : Nat) : Option Int :=
  if ts ≤ 253402300799 then some (ts : Int) else none

/-- `timedelta.days`: the whole-day count of a duration given in seconds,
rounded toward negative infinity exactly as Python normalises timedeltas. -/
def timedelta_days (seconds : Int) : Int :=
  Int.fdiv seconds 86400

/-- The elapsed-day count `estimate_account_age` derives for an identifier at
time `now` (seconds since the Unix epoch). -/
def derivedDays (user_id : Nat) (now : Int) : Int :=
  timedelta_days (now - (account_timestamp user_id : Int))

/-- The pluralisation used throughout: `'s' if count > 1 else ''`. -/
def pluralS (count : Int) : String :=
  if count > 1 then "s" else ""

/-- `UserInfoBot.estimate_account_age` from `src/Bot.py` (lines 80-94): the
timestamp embedded in the identifier is converted to a date, the age to `now`
is taken, and the result is rendered in years (when over 365 days) or months;
a conversion failure is caught and yields "unknown". -/
def estimate_account_age (user_id : Nat) (now : Int) : String :=
  match fromtimestamp (account_timestamp user_id) with
  | none => "unknown"
  | some account_date =>
    let days := timedelta_days (now - account_date)
    if days > 365 then
      toString (Int.fdiv days 365) ++ " year" ++ pluralS (Int.fdiv days 365)
    else
      toString (Int.fdiv days 30) ++ " month" ++ pluralS (Int.fdiv days 30)

/-- `UserInfoBot.estimate_account_age` from `src/bot.py` (lines 66-81): the
same algorithm with an " old" suffix on success and "unknown age" on failure. -/
def estimate_account_age_v2 (user_id : Nat) (now : Int) : String :=
  match fromtimestamp (account_timestamp user_id) with
  | none => "unknown age"
  | some account_date =>
    let days := timedelta_days (now - account_date)
    if days > 365 then
      toString (Int.fdiv days 365) ++ " year" ++ pluralS (Int.fdiv days 365) ++ " old"
    else
      toString (Int.fdiv days 30) ++ " month" ++ pluralS (Int.fdiv days 30) ++ " old"

/-- The estimator exactly as §4.1 of the spec words it: extract the upper 32
bits of the identifier, interpret them as Unix epoch seconds, compute elapsed
days to `now`; if elapsed days exceed 365 render `elapsed_days // 365` years,
otherwise `elapsed_days // 30` months, pluralised when the count exceeds 1. -/
def estimate_spec (identifier : Nat) (now : Int) : String :=
  let elapsed_days := derivedDays identifier now
  if elapsed_days > 365 then
    toString (Int.fdiv elapsed_days 365) ++ " year" ++ pluralS (Int.fdiv elapsed_days 365)
  else
    toString (Int.fdiv elapsed_days 30) ++ " month" ++ pluralS (Int.fdiv elapsed_days 30)

theorem account_timestamp_lt (user_id : Nat) : account_timestamp user_id < 4294967296 :=
  Nat.mod_lt _ (by norm_num)

theorem fromtimestamp_account (user_id : Nat) :
    fromtimestamp (account_timestamp user_id) = some (account_timestamp user_id : Int) := by
  unfold fromtimestamp
  rw [if_pos]
  exact Nat.le_of_lt (Nat.lt_of_lt_of_le (account_timestamp_lt user_id) (by norm_num))

/-- C2: for every identifier and every `now`, `estimate_account_age` extracts
the upper 32 bits of the identifier, interprets them as Unix epoch seconds,
computes the elapsed day count to `now`, and renders `days // 365` years when
the day count exceeds 365 and `days // 30` months otherwise — i.e. it agrees
everywhere with the spec's direct arithmetic description (`estimate_spec`);
in particular the exception fallback is unreachable because every possible
32-bit timestamp is in `datetime`'s representable range. -/
theorem estimate_matches_spec_algorithm (user_id : Nat) (now : Int) :
    estimate_account_age user_id now = estimate_spec user_id now := by
  unfold estimate_account_age estimate_spec derivedDays
  rw [fromtimestamp_account]

/-- C7: the scenario from the spec: identifier 5000000000 has upper 32 bits
equal to 1 (epoch 1970-01-01T00:00:01), and at `now` = 2024-01-01T00:00:00 UTC
(Unix second 1704067200) the estimator answers "54 years". -/
theorem estimate_scenario_54_years :
    estimate_account_age 5000000000 1704067200 = "54 years" := by
  decide

/-- `ForwardDisclosure` (§3 of the spec): the four disclosure tiers a
forwarded message can fall into. -/
inductive ForwardDisclosure where
  | FullPerson (u : TUser)
  | FullChannel (c : TChat)
  | PartialName (displayName : String) (forwardedAt : Int)
  | Unknown
  deriving DecidableEq

/-- The branch structure of `UserInfoBot.handle_forwarded` in `src/Bot.py`
(lines 118-151): which reply tier is chosen for a forwarded message. The
conditions are Python truthiness of the attributes tested by the
`if`/`elif` chain (`forward_from`, then `forward_from_chat`, then
`forward_sender_name`). -/
def classify (m : FwdMessage) : ForwardDisclosure :=
  match m.forward_from with
  | some u => ForwardDisclosure.FullPerson u
  | none =>
    match m.forward_from_chat with
    | some c => ForwardDisclosure.FullChannel c
    | none =>
      match m.forward_sender_name with
      | some s =>
        if s.isEmpty then ForwardDisclosure.Unknown
        else ForwardDisclosure.PartialName s m.forward_date
      | none => ForwardDisclosure.Unknown

/-- The branch structure of `UserInfoBot.handle_forwarded` in `src/bot.py`
(lines 105-126): this variant tests only `forward_from` and
`forward_from_chat`; everything else falls into the unknown tier. -/
def classify_v2 (m : FwdMessage) : ForwardDisclosure :=
  match m.forward_from with
  | some u => ForwardDisclosure.FullPerson u
  | none =>
    match m.forward_from_chat with
    | some c => ForwardDisclosure.FullChannel c
    | none => ForwardDisclosure.Unknown

/-- A forwarded message carrying only a privacy-preserving sender name. -/
def mPartial : FwdMessage := ⟨none, none, some "Alex", 1700000000⟩

/-- C1 counterexample: the claim asserts the PartialName tier is tested (third)
by the forwarded-message handler, but the `src/bot.py` variant has no such
branch: a message carrying only the free-text sender name "Alex" is classified
Unknown, not PartialName. -/
theorem classify_v2_drops_partial_tier :
    classify_v2 mPartial = ForwardDisclosure.Unknown ∧
    classify_v2 mPartial ≠ ForwardDisclosure.PartialName "Alex" 1700000000 := by
  exact ⟨rfl, by decide⟩

/-- C1 (amended): both handlers are total — every forwarded message falls into
exactly one of the four disclosure tiers; `src/Bot.py` tests the tiers in the
order FullPerson, FullChannel, PartialName (nonempty sender name), Unknown,
while `src/bot.py` omits the PartialName tier and sends every message without
a source user or source chat to Unknown. -/
theorem classify_tiers :
    (∀ m : FwdMessage,
      (∃ u, classify m = ForwardDisclosure.FullPerson u) ∨
      (∃ c, classify m = ForwardDisclosure.FullChannel c) ∨
      (∃ s d, classify m = ForwardDisclosure.PartialName s d) ∨
      classify m = ForwardDisclosure.Unknown) ∧
    (∀ m u, m.forward_from = some u → classify m = ForwardDisclosure.FullPerson u) ∧
    (∀ m c, m.forward_from = none → m.forward_from_chat = some c →
      classify m = ForwardDisclosure.FullChannel c) ∧
    (∀ m s, m.forward_from = none → m.forward_from_chat = none →
      m.forward_sender_name = some s → s.isEmpty = false →
      classify m = ForwardDisclosure.PartialName s m.forward_date) ∧
    (∀ m, m.forward_from = none → m.forward_from_chat = none →
      pyTruthyStr m.forward_sender_name = false →
      classify m = ForwardDisclosure.Unknown) ∧
    (∀ m u, m.forward_from = some u → classify_v2 m = ForwardDisclosure.FullPerson u) ∧
    (∀ m c, m.forward_from = none → m.forward_from_chat = some c →
      classify_v2 m = ForwardDisclosure.FullChannel c) ∧
    (∀ m, m.forward_from = none → m.forward_from_chat = none →
      classify_v2 m = ForwardDisclosure.Unknown) := by
  refine ⟨?_, ?_, ?_, ?_, ?_, ?_, ?_, ?_⟩
  · intro m
    unfold classify
    rcases m.forward_from with _ | u
    · rcases m.forward_from_chat with _ | c
      · rcases hs : m.forward_sender_name with _ | s
        · exact Or.inr (Or.inr (Or.inr rfl))
        · by_cases he : s.isEmpty
          · refine Or.inr (Or.inr (Or.inr ?_))
            simp [he]
          · refine Or.inr (Or.inr (Or.inl ⟨s, m.forward_date, ?_⟩))
            simp [he]
      · exact Or.inr (Or.inl ⟨c, rfl⟩)
    · exact Or.inl ⟨u, rfl⟩
  · intro m u h
    unfold classify
    rw [h]
  · intro m c h1 h2
    unfold classify
    rw [h1, h2]
  · intro m s h1 h2 h3 h4
    unfold classify
    rw [h1, h2, h3]
    simp [h4]
  · intro m h1 h2 h3
    unfold classify
    rw [h1, h2]
    rcases hs : m.forward_sender_name with _ | s
    · rfl
    · rw [hs] at h3
      simp [pyTruthyStr] at h3
      simp [h3]
  · intro m u h
    unfold classify_v2
    rw [h]
  · intro m c h1 h2
    unfold classify_v2
    rw [h1, h2]
  · intro m h1 h2
    unfold classify_v2
    rw [h1, h2]

/-- C1 witness: the PartialName tier of `src/Bot.py` at a concrete message. -/
theorem classify_tiers_witness :
    classify mPartial = ForwardDisclosure.PartialName "Alex" 1700000000 :=
  classify_tiers.2.2.2.1 mPartial "Alex" rfl rfl rfl (by decide)

/-- C8: the elapsed day count the estimator derives is monotone in `now`: for
a fixed identifier, moving `now` later never decreases the derived day count. -/
theorem derivedDays_monotone (user_id : Nat) (now1 now2 : Int) (h : now1 ≤ now2) :
    derivedDays user_id now1 ≤ derivedDays user_id now2 := by
  unfold derivedDays timedelta_days
  rw [Int.fdiv_eq_ediv _ (by norm_num), Int.fdiv_eq_ediv _ (by norm_num)]
  exact Int.ediv_le_ediv (by norm_num) (by omega)

/-- C8 witness: monotonicity at identifier 5000000000 between 2024-01-01 and
2024-01-02. -/
theorem derivedDays_monotone_witness :
    derivedDays 5000000000 1704067200 ≤ derivedDays 5000000000 1704153600 :=
  derivedDays_monotone 5000000000 1704067200 1704153600 (by norm_num)

theorem estimate_eq (user_id : Nat) (now : Int) :
    estimate_account_age user_id now =
      if derivedDays user_id now > 365 then
        toString (Int.fdiv (derivedDays user_id now) 365) ++ " year" ++
          pluralS (Int.fdiv (derivedDays user_id now) 365)
      else
        toString (Int.fdiv (derivedDays user_id now) 30) ++ " month" ++
          pluralS (Int.fdiv (derivedDays user_id now) 30) := by
  unfold estimate_account_age
  rw [fromtimestamp_account]
  rfl

theorem toString_intCast (n : Nat) : toString (n : Int) = toString n := rfl

/-- Decides the spec's regex `^\d+ (year|month)s?$`: a nonempty leading run of
decimal digits followed by exactly one of the four unit suffixes. -/
def matchesAgeRegex (s : String) : Bool :=
  let l := s.toList
  !(l.takeWhile Char.isDigit).isEmpty &&
    (l.dropWhile Char.isDigit == " year".toList ||
     l.dropWhile Char.isDigit == " years".toList ||
     l.dropWhile Char.isDigit == " month".toList ||
     l.dropWhile Char.isDigit == " months".toList)

/-- C3 counterexample: the identifier whose upper 32 bits encode
2100-01-01 (Unix second 4102444800) lies in the future of
`now` = 2024-01-01, and the estimator returns "-926 month": a string that
neither matches `^\d+ (year|month)s?$` nor is the fallback "unknown"
(for contrast, the predicate does accept the well-formed "54 years"). -/
theorem estimate_negative_output :
    estimate_account_age (4102444800 <<< 32) 1704067200 = "-926 month" ∧
    matchesAgeRegex (estimate_account_age (4102444800 <<< 32) 1704067200) = false ∧
    estimate_account_age (4102444800 <<< 32) 1704067200 ≠ "unknown" ∧
    matchesAgeRegex "54 years" = true := by
  refine ⟨by decide, by decide, by decide, by decide⟩

/-- C3 (amended): whenever the timestamp embedded in the identifier does not
lie in the future of `now`, the estimator returns a nonnegative count followed
by a unit word — a string matching `^\d+ (year|month)s?$`; it is total (never
raises) for every identifier, but for identifiers whose embedded timestamp
exceeds `now` the rendered count is negative rather than the fallback. -/
theorem estimate_output_shape (user_id : Nat) (now : Int)
    (h : (account_timestamp user_id : Int) ≤ now) :
    ∃ c : Nat, estimate_account_age user_id now = toString c ++ " year" ++ pluralS c ∨
               estimate_account_age user_id now = toString c ++ " month" ++ pluralS c := by
  have hdays : 0 ≤ derivedDays user_id now := by
    unfold derivedDays timedelta_days
    rw [Int.fdiv_eq_ediv _ (by norm_num)]
    exact Int.ediv_nonneg (by omega) (by norm_num)
  rw [estimate_eq]
  by_cases hgt : derivedDays user_id now > 365
  · have h365 : (0:Int) ≤ Int.fdiv (derivedDays user_id now) 365 := by
      rw [Int.fdiv_eq_ediv _ (by norm_num)]
      exact Int.ediv_nonneg hdays (by norm_num)
    obtain ⟨n, hn⟩ := Int.eq_ofNat_of_zero_le h365
    refine ⟨n, Or.inl ?_⟩
    rw [if_pos hgt, hn, toString_intCast]
  · have h30 : (0:Int) ≤ Int.fdiv (derivedDays user_id now) 30 := by
      rw [Int.fdiv_eq_ediv _ (by norm_num)]
      exact Int.ediv_nonneg hdays (by norm_num)
    obtain ⟨n, hn⟩ := Int.eq_ofNat_of_zero_le h30
    refine ⟨n, Or.inr ?_⟩
    rw [if_neg hgt, hn, toString_intCast]

/-- C3 witness: the shape theorem applied at identifier 5000000000 and
`now` = 2024-01-01. -/
theorem estimate_output_shape_witness :
    ∃ c : Nat, estimate_account_age 5000000000 1704067200 = toString c ++ " year" ++ pluralS c ∨
               estimate_account_age 5000000000 1704067200 = toString c ++ " month" ++ pluralS c :=
  estimate_output_shape 5000000000 1704067200 (by decide)

/-- C5: the unit word in a string the estimator returns is plural exactly when
the count exceeds 1: the suffix function yields "s" iff 1 < count (so counts
1 and 0 both render singular, e.g. "0 month"), and every output of the
estimator has the count-unit-suffix shape governed by that rule; the boundary
behaviour is the same in the `src/bot.py` variant. -/
theorem plural_exactly_above_one :
    (∀ c : Int, pluralS c = if 1 < c then "s" else "") ∧
    pluralS 1 = "" ∧ pluralS 0 = "" ∧
    (∀ user_id : Nat, ∀ now : Int, ∃ c : Int,
      estimate_account_age user_id now = toString c ++ " year" ++ pluralS c ∨
      estimate_account_age user_id now = toString c ++ " month" ++ pluralS c) ∧
    estimate_account_age 4294967296 1 = "0 month" ∧
    estimate_account_age_v2 4294967296 1 = "0 month old" := by
  refine ⟨fun c => rfl, rfl, rfl, ?_, by decide, by decide⟩
  intro user_id now
  rw [estimate_eq]
  by_cases hgt : derivedDays user_id now > 365
  · exact ⟨Int.fdiv (derivedDays user_id now) 365, Or.inl (by rw [if_pos hgt])⟩
  · exact ⟨Int.fdiv (derivedDays user_id now) 30, Or.inr (by rw [if_neg hgt])⟩

/-- C10: every identifier below 2^32 has upper 32 bits equal to zero, so the
estimator dates such an account to the Unix epoch and, for any `now` from
2020-01-01 (Unix second 1577836800) onwards, reports at least "50 years" —
a multi-decade year count, never the fallback string. -/
theorem small_id_uses_epoch (user_id : Nat) (now : Int)
    (hid : user_id < 4294967296) (hnow : 1577836800 ≤ now) :
    account_timestamp user_id = 0 ∧
    ∃ y : Int, 50 ≤ y ∧ estimate_account_age user_id now = toString y ++ " years" := by
  have hts : account_timestamp user_id = 0 := by
    unfold account_timestamp
    rw [Nat.shiftRight_eq_div_pow]
    have h32 : user_id < 2 ^ 32 := by norm_num; exact hid
    rw [Nat.div_eq_of_lt h32]
  have hdays : (18262:Int) ≤ derivedDays user_id now := by
    unfold derivedDays timedelta_days
    rw [hts]
    rw [Int.fdiv_eq_ediv _ (by norm_num)]
    have h1 : (18262:Int) = 1577836800 / 86400 := by decide
    rw [h1]
    exact Int.ediv_le_ediv (by norm_num) (by push_cast; omega)
  have hy : (50:Int) ≤ Int.fdiv (derivedDays user_id now) 365 := by
    rw [Int.fdiv_eq_ediv _ (by norm_num)]
    have h50 : (50:Int) = 18262 / 365 := by decide
    rw [h50]
    exact Int.ediv_le_ediv (by norm_num) hdays
  refine ⟨hts, Int.fdiv (derivedDays user_id now) 365, hy, ?_⟩
  rw [estimate_eq, if_pos (by omega)]
  have hs : pluralS (Int.fdiv (derivedDays user_id now) 365) = "s" := by
    unfold pluralS
    rw [if_pos (by omega)]
  rw [hs, String.append_assoc]
  rfl

/-- C10 witness: a realistic sub-2^32 identifier at `now` = 2024-01-01. -/
theorem small_id_uses_epoch_witness :
    account_timestamp 123456789 = 0 ∧
    ∃ y : Int, 50 ≤ y ∧ estimate_account_age 123456789 1704067200 = toString y ++ " years" :=
  small_id_uses_epoch 123456789 1704067200 (by norm_num) (by norm_num)

/-- The reply of `UserInfoBot.myid_command` (`src/Bot.py` lines 68-78), as its
list of newline-separated rows. -/
def myid_rows (u : TUser) : List String :=
  [ "🆔 <b>Your Telegram ID</b>",
    "├ ID: <code>" ++ toString u.id ++ "</code>",
    "├ First Name: " ++ u.first_name,
    "├ Last Name: " ++ orNA u.last_name,
    "└ Username: @" ++ orNA u.username ]

/-- The reply of `UserInfoBot.myid_command` as one string. -/
def myid_reply (u : TUser) : String :=
  String.intercalate "\n" (myid_rows u)

/-- Does `needle` occur as a contiguous substring of the character list? -/
def listContains (needle : List Char) : List Char → Bool
  | [] => needle.isEmpty
  | c :: rest => needle.isPrefixOf (c :: rest) || listContains needle rest

/-- Does the rendered text contain an "Account Age" row? -/
def hasAccountAgeRow (s : String) : Bool :=
  listContains "Account Age".toList s.toList

/-- A requester with no optional attributes set. -/
def u_plain : TUser := ⟨123456789, false, "Alex", none, none, none⟩

/-- C4 counterexample: the claim says the self-identity reply includes an
account-age row, but `myid_command` renders only ID, first name, last name and
username: for a concrete requester its reply contains no "Account Age" row
(while the forwarded-user formatter, for contrast, does produce one — see the
C6 development below). -/
theorem myid_lacks_account_age :
    hasAccountAgeRow (myid_reply u_plain) = false := by
  decide

/-- C4 (amended): the self-identity reply renders the requester's ID, first
name, last name and handle but no account-age row; when the requester has no
username set, the handle row reads exactly "└ Username: @N/A". -/
theorem myid_handle_na (u : TUser) (h : u.username = none) :
    (myid_rows u).getLast? = some "└ Username: @N/A" ∧ (myid_rows u).length = 5 := by
  constructor
  · unfold myid_rows
    rw [h]
    rfl
  · rfl

/-- C4 witness: the handle row at the concrete requester without a username. -/
theorem myid_handle_na_witness :
    (myid_rows u_plain).getLast? = some "└ Username: @N/A" ∧ (myid_rows u_plain).length = 5 :=
  myid_handle_na u_plain rfl

/-- `str(x)` applied to an optional attribute: Python renders `None` as the
string "None". -/
def pyStr : Option String → String
  | none => "None"
  | some s => s

/-- `hasattr(user, "language_code")`: `telegram.User` always defines the
attribute (its value is `None` when Telegram sent no language), so the test
in `src/bot.py` line 91 is true for every user. -/
def hasattr_language_code (_ : TUser) : Bool := true

/-- `UserInfoBot.format_user_info` from `src/Bot.py` (lines 96-106). -/
def format_user_info (u : TUser) (now : Int) : String :=
  "👤 <b>User Information</b>\n" ++
  "├ ID: <code>" ++ toString u.id ++ "</code>\n" ++
  "├ Is Bot: " ++ (if u.is_bot then "✅ Yes" else "❌ No") ++ "\n" ++
  "├ First Name: " ++ u.first_name ++ "\n" ++
  "├ Last Name: " ++ orNA u.last_name ++ "\n" ++
  "├ Username: @" ++ orNA u.username ++ "\n" ++
  "└ Account Age: " ++ estimate_account_age u.id now ++ "\n"

/-- `UserInfoBot.format_user_info` from `src/bot.py` (lines 83-93). -/
def format_user_info_v2 (u : TUser) (now : Int) : String :=
  "👤 <b>User Information</b>\n" ++
  " ├ ID: <code>" ++ toString u.id ++ "</code>\n" ++
  " ├ Is Bot: " ++ (if u.is_bot then "True" else "False") ++ "\n" ++
  " ├ First Name: " ++ u.first_name ++ "\n" ++
  " ├ Username: @" ++ orNA u.username ++ "\n" ++
  " ├ Language: " ++ (if hasattr_language_code u then pyStr u.language_code else "N/A") ++ "\n" ++
  " └ Account Age: " ++ estimate_account_age_v2 u.id now ++ "\n"

/-- A forwarded-from user with no optional attributes set. -/
def u_noLang : TUser := ⟨123, false, "Alex", none, none, none⟩

/-- C6 (code bug): for a user without a language code, `src/bot.py`'s user
formatter renders the row "├ Language: None" instead of the placeholder
"N/A", because `hasattr(user, "language_code")` is always true for a
`telegram.User` and so never selects the intended fallback; the sibling rows
(and all of `src/Bot.py`'s formatter, shown for contrast on the same user)
do degrade absent optional fields to "N/A". -/
theorem language_row_renders_none :
    format_user_info_v2 u_noLang 1704067200 =
      "👤 <b>User Information</b>\n ├ ID: <code>123</code>\n ├ Is Bot: False\n" ++
      " ├ First Name: Alex\n ├ Username: @N/A\n ├ Language: None\n" ++
      " └ Account Age: 54 years old\n" ∧
    listContains "Language: N/A".toList (format_user_info_v2 u_noLang 1704067200).toList
      = false ∧
    listContains "Language: None".toList (format_user_info_v2 u_noLang 1704067200).toList
      = true ∧
    listContains "Last Name: N/A".toList (format_user_info u_noLang 1704067200).toList
      = true ∧
    listContains "Username: @N/A".toList (format_user_info u_noLang 1704067200).toList
      = true ∧
    hasAccountAgeRow (format_user_info u_noLang 1704067200) = true := by
  refine ⟨by decide, by decide, by decide, by decide, by decide, by decide⟩

/-- An observable action of the `__main__` startup block. -/
inductive StartupAction where
  | logError (msg : String)
  | exitProcess (code : Nat)
  | registerHandler (name : String)
  | runPolling
  deriving DecidableEq

/-- Python falsiness of the `os.getenv` result (`if not BOT_TOKEN`): `None`
and the empty string are falsy. -/
def pyFalsyToken : Option String → Bool
  | none => true
  | some s => s.isEmpty

/-- The `__main__` block of `src/Bot.py` (lines 159-173) as the sequence of
observable actions it performs, as a function of the value
`os.getenv("TELEGRAM_BOT_TOKEN")` found in the environment. -/
def mainTrace (token : Option String) : List StartupAction :=
  if pyFalsyToken token then
    [StartupAction.logError "Missing TELEGRAM_BOT_TOKEN in environment variables",
     StartupAction.exitProcess 1]
  else
    [StartupAction.registerHandler "start", StartupAction.registerHandler "help",
     StartupAction.registerHandler "myid", StartupAction.registerHandler "forwarded",
     StartupAction.runPolling]

/-- The `__main__` block of `src/bot.py` (lines 134-148), likewise. -/
def mainTrace_v2 (token : Option String) : List StartupAction :=
  if pyFalsyToken token then
    [StartupAction.logError "No TELEGRAM_BOT_TOKEN found in environment variables",
     StartupAction.exitProcess 1]
  else
    [StartupAction.registerHandler "start", StartupAction.registerHandler "forwarded",
     StartupAction.registerHandler "help", StartupAction.runPolling]

/-- Does a startup trace register any handler? -/
def registersAnyHandler (t : List StartupAction) : Bool :=
  t.any fun a =>
    match a with
    | StartupAction.registerHandler _ => true
    | _ => false

/-- Does a startup trace end the process with a non-zero exit status? -/
def exitsNonzero (t : List StartupAction) : Bool :=
  t.any fun a =>
    match a with
    | StartupAction.exitProcess c => c != 0
    | _ => false

/-- C9: when the access token is absent from the environment, both variants'
startup blocks log an error-level diagnostic and then terminate with exit
status 1 (non-zero), performing no handler registration at all — in
particular none before the exit. -/
theorem missing_token_fatal :
    mainTrace none =
      [StartupAction.logError "Missing TELEGRAM_BOT_TOKEN in environment variables",
       StartupAction.exitProcess 1] ∧
    exitsNonzero (mainTrace none) = true ∧
    registersAnyHandler (mainTrace none) = false ∧
    mainTrace_v2 none =
      [StartupAction.logError "No TELEGRAM_BOT_TOKEN found in environment variables",
       StartupAction.exitProcess 1] ∧
    exitsNonzero (mainTrace_v2 none) = true ∧
    registersAnyHandler (mainTrace_v2 none) = false := by
  refine ⟨rfl, rfl, rfl, rfl, rfl, rfl⟩
